import Mathlib

/-!
Verification of the hiveary-agent monitor execution core.

The definitions below are shallow embeddings of the Python source:
* `hiveary/network.py` — credential bootstrap (`initialize_amqp`),
  HTTPS exponential backoff (`request_with_backoff`), AMQP publishing
  with retry (`publish_info_message`, `ping_pong`);
* `hiveary/monitors/__init__.py` — the datapoint buffer
  (`store_data_point`, `merge_data`, `send_data`), interval alignment
  (`IntervalMixin.next_interval`) and the alert state machines
  (`UsageMonitor.alert_check`, `StatusMonitor.alert_check`);
* `hiveary/controller.py` — `start_aggregation_loop` scheduling the
  first aggregation tick.

Machine reals (Python floats) are modelled as rationals; Python `None`
becomes `Option`; `sys.exit n` becomes `Except.error n`.
-/

namespace Hiveary

/-! ### Backoff (`NetworkController.request_with_backoff`)

The delay before a retry is `2 ** attempt + random.randint(0, 1000) / 1000.0`
seconds; `random.randint(0, 1000)` is inclusive at both ends, so the jitter
numerator ranges over `0..1000`.  After sleeping, `attempt` is incremented
only while it is below `MAX_BACKOFF_MULTIPLE = 10`. -/

/-- MAX_BACKOFF_MULTIPLE from `network.py`. -/
def MAX_BACKOFF_MULTIPLE : ℕ := 10

/-- Backoff delay in seconds for a given attempt number and jitter draw
`jitterMs = random.randint(0, 1000)` (so `jitterMs ≤ 1000`):
`timer = (2 ** attempt) + (random.randint(0, 1000) / 1000.0)`. -/
def backoffDelay (attempt jitterMs : ℕ) : ℚ :=
  2 ^ attempt + (jitterMs : ℚ) / 1000

/-- Evolution of the attempt counter after one failed request:
`if attempt < self.MAX_BACKOFF_MULTIPLE: attempt += 1`. -/
def nextAttempt (a : ℕ) : ℕ :=
  if a < MAX_BACKOFF_MULTIPLE then a + 1 else a

/-- The attempt counter after `n` failed requests, starting from the
initial call with `attempt=0`. -/
def attemptAfter : ℕ → ℕ
  | 0 => 0
  | n + 1 => nextAttempt (attemptAfter n)

/-! ### Credential bootstrap (`NetworkController.initialize_amqp`)

The HTTPS response is modelled after parsing: its status code and the
three optional fields read with `content_json.get(...)`.  `sys.exit n`
is `Except.error n`; reaching the AMQP connection setup is `Except.ok`
with the three credentials. -/

/-- Parsed bootstrap response: HTTP status plus the three fields the code
reads from the JSON body with `.get`, each possibly absent. -/
structure BootstrapResponse where
  status : ℕ
  amqp_password : Option String
  user_id : Option String
  host_id : Option String

/-- Credentials carried into the AMQP connection. -/
structure AmqpCredentials where
  amqp_password : String
  user_id : String
  host_id : String
deriving DecidableEq

/-- Shallow embedding of `NetworkController.initialize_amqp` up to the
point where the AMQP connection is created: status 200 extracts the three
fields and then exits 1 if any is `None`; status 409 exits 409; any other
status exits with that status.  `Except.ok` means the code proceeds to
open the AMQP connection with the returned credentials. -/
def initializeAmqp (r : BootstrapResponse) : Except ℕ AmqpCredentials :=
  if r.status = 200 then
    match r.host_id, r.amqp_password, r.user_id with
    | some h, some p, some u => .ok ⟨p, u, h⟩
    | _, _, _ => .error 1
  else if r.status = 409 then .error 409
  else .error r.status

/-! ### Publishing with retry (`NetworkController.publish_info_message`)

The environment is modelled by `outcomes`, the list of results of the
successive `producer.publish` calls: `true` means the call raises,
`false` (or running past the end of the list) means it succeeds.  On an
exception the code logs, calls `amqp_reconnect`, and — when `retry` is
set — calls itself again with the *same* arguments (`retry` included).
`ping_pong` publishes with `retry=False`. -/

/-- Trace of `publish_info_message`: returns the payload of every publish
attempt made (in order) and the number of `amqp_reconnect` calls. -/
def publishRun (outcomes : List Bool) (retry : Bool) (msg : α) :
    List α × ℕ :=
  match outcomes with
  | [] => ([msg], 0)
  | false :: _ => ([msg], 0)
  | true :: rest =>
    if retry then
      let r := publishRun rest retry msg
      (msg :: r.1, 1 + r.2)
    else ([msg], 1)

/-- Payload of a keepalive ping: `ping_pong` publishes an empty dict on
routing key `ping` with `retry=False`; this models its attempt trace. -/
def pingRun (outcomes : List Bool) : List String × ℕ :=
  publishRun outcomes false "ping"

/-! ### Interval alignment (`IntervalMixin.next_interval` and
`RealityAuditor.start_aggregation_loop`)

An instant is its epoch time in seconds as a rational; `datetime.utcnow()`
derives minute/second/microsecond from it, so
`now.minute * 60 + now.second + now.microsecond * 1e-6` is exactly the
number of seconds elapsed since the start of the current UTC hour.
`start_aggregation_loop` schedules the first tick with
`reactor.callLater(int(delta), ...)`, truncating the delay to a whole
second; for the nonnegative `delta` this is the floor. -/

/-- Seconds elapsed since the start of the current UTC hour, the value
`nsecs_passed = now.minute * 60 + now.second + now.microsecond * 1e-6`
computed by `next_interval`. -/
def nsecsPassed (t : ℚ) : ℚ := t - 3600 * (⌊t / 3600⌋ : ℤ)

/-- Shallow embedding of `IntervalMixin.next_interval`:
`delta = (nsecs_passed // interval) * interval + interval - nsecs_passed`. -/
def nextInterval (t interval : ℚ) : ℚ :=
  (⌊nsecsPassed t / interval⌋ : ℤ) * interval + interval - nsecsPassed t

/-- The wall-clock boundary targeted by `next_interval`: the instant
`now + delta`, i.e. the next `((s // interval) + 1) * interval` boundary
where `s` is the seconds elapsed in the current hour. -/
def intervalBoundary (t interval : ℚ) : ℚ := t + nextInterval t interval

/-- The instant at which the first aggregation tick fires:
`start_aggregation_loop` passes `int(delta)` to `reactor.callLater`. -/
def firstTickTime (t interval : ℚ) : ℚ :=
  t + (⌊nextInterval t interval⌋ : ℤ)

/-! ### Datapoint buffer (`store_data_point`, `merge_data`, `send_data`)

A stored datapoint is the monitor-produced source readings together with
the `timestamp` key that `store_data_point` adds.  `merge_data` folds the
points whose timestamp is at least `earliest` into a (default-empty) map
from key to the list of values seen, iterating a point's items as its
source readings followed by its timestamp entry.  Readings and timestamps
are both rationals here.

`send_data` computes
`earliest = time.time() - timedelta(minutes=30, seconds=now.second,
microseconds=now.microsecond).total_seconds()`, i.e. thirty minutes plus
the seconds elapsed in the current UTC *minute*, merges, then performs the
unguarded `data.pop('timestamp')` — a `KeyError` when no point was merged
— and only afterwards publishes and clears `data_points`.  The metadata
fields (`period`, `day`, `host_id`, `id`, `interval`) attached to the
published dict are elided; the model keeps the merged readings map with
the `timestamp` key popped. -/

/-- One stored datapoint: the monitor's source readings (as the items of
the dict passed to `store_data_point`, in iteration order) plus the
timestamp that `store_data_point` assigned. -/
structure StoredPoint where
  data : List (String × ℚ)
  timestamp : ℚ
deriving DecidableEq

/-- Appending one merged point into the accumulated multimap: for each
item `source, value` of the point — its source readings followed by its
`timestamp` entry — append `value` to `data[source]`. -/
def mergePoint (acc : String → List ℚ) (p : StoredPoint) :
    String → List ℚ :=
  (p.data ++ [("timestamp", p.timestamp)]).foldl
    (fun acc2 sv => fun x =>
      if x = sv.1 then acc2 x ++ [sv.2] else acc2 x)
    acc

/-- Shallow embedding of `BaseMonitor.merge_data`: fold every point with
`point['timestamp'] >= earliest` into a default-empty multimap, skipping
the points recorded before `earliest`. -/
def mergeData (points : List StoredPoint) (earliest : ℚ) :
    String → List ℚ :=
  points.foldl
    (fun acc p => if earliest ≤ p.timestamp then mergePoint acc p else acc)
    (fun _ => [])

/-- Seconds (with the microsecond fraction) elapsed since the start of the
current UTC minute: `now.second + now.microsecond * 1e-6`. -/
def secondsIntoMinute (t : ℚ) : ℚ := t - 60 * (⌊t / 60⌋ : ℤ)

/-- The lower bound `send_data` passes to `merge_data`:
`time.time() - timedelta(minutes=30, seconds=now.second,
microseconds=now.microsecond).total_seconds()`. -/
def sendDataEarliest (now : ℚ) : ℚ :=
  now - (1800 + secondsIntoMinute now)

/-- Shallow embedding of `BaseMonitor.send_data` at instant `now`: merge
the buffer from `sendDataEarliest now`, pop the `timestamp` key — raising
`KeyError` (the `none` publication) when it is absent, in which case
nothing is published and `data_points` is left untouched — otherwise
publish the merged readings and clear the buffer.  Returns the published
payload (if any) and the resulting `data_points`. -/
def sendData (points : List StoredPoint) (now : ℚ) :
    Option (String → List ℚ) × List StoredPoint :=
  let data := mergeData points (sendDataEarliest now)
  if data "timestamp" = [] then (none, points)
  else (some (fun x => if x = "timestamp" then [] else data x), [])

/-! ### Alert engines (`UsageMonitor.alert_check`, `StatusMonitor.alert_check`)

Python truthiness: a threshold read with `expected_values.get(source)` is
`None` when absent and falsy when it equals `0`; an expected state string
is falsy when absent or empty.  A missing reading (`data.get(source)` is
`None`) compares below every number under Python 2 ordering, so
`usage >= threshold` is false and `usage < threshold` is true for it.

The counters are `defaultdict(int)` and `alert_status` a
`defaultdict(bool)` read via `.get` (missing keys are falsy), so they are
modelled as total functions with defaults `0` and `false`.  The fields of
the alert dict that are constant per monitor (`timestamp`, monitor id,
name, type, `source_type`, `event_data`, `current_processes`) are elided;
the alert keeps the varying fields. -/

/-- Per-source alert engine state: the two flop counters and the latched
alert status. -/
structure SourceState where
  failing : ℕ
  passing : ℕ
  status : Bool
deriving DecidableEq

/-- Python 2 evaluation of `usage >= threshold` where `usage` may be
`None` (which orders below every number). -/
def pyGeB (u : Option ℚ) (t : ℚ) : Bool :=
  match u with
  | none => false
  | some v => decide (t ≤ v)

/-- Python 2 evaluation of `usage < threshold` where `usage` may be
`None` (which orders below every number). -/
def pyLtB (u : Option ℚ) (t : ℚ) : Bool :=
  match u with
  | none => true
  | some v => decide (v < t)

/-- Alert payload of a usage monitor, restricted to its varying fields. -/
structure UsageAlert where
  source : String
  threshold : Option ℚ
  current_usage : Option ℚ
  failing : Bool
deriving DecidableEq

/-- One iteration of the `UsageMonitor.alert_check` loop for a single
source: the branch `threshold and usage >= threshold and not
source_is_failing` increments the failing counter and, once it reaches
`FLOP_PROTECTION_COUNTER`, emits a failing alert, latches
`alert_status[source] = True` and zeroes the failing counter; the branch
`threshold and usage < threshold and source_is_failing` does the
symmetric thing with the passing counter; every other case zeroes both
counters.  Note that each alerting branch resets only its own counter
and leaves the other counter untouched. -/
def usageSourceStep (source : String) (flop : ℕ)
    (threshold usage : Option ℚ) (st : SourceState) :
    SourceState × Option UsageAlert :=
  match threshold with
  | some t =>
    if t ≠ 0 ∧ pyGeB usage t ∧ st.status = false then
      let f := st.failing + 1
      if flop ≤ f then
        (⟨0, st.passing, true⟩, some ⟨source, threshold, usage, true⟩)
      else (⟨f, st.passing, false⟩, none)
    else if t ≠ 0 ∧ pyLtB usage t ∧ st.status = true then
      let p := st.passing + 1
      if flop ≤ p then
        (⟨st.failing, 0, false⟩, some ⟨source, threshold, usage, false⟩)
      else (⟨st.failing, p, true⟩, none)
    else (⟨0, 0, st.status⟩, none)
  | none => (⟨0, 0, st.status⟩, none)

/-- Per-monitor alert engine state: `failing_alert_counters`,
`passing_alert_counters` and `alert_status`, all keyed by source. -/
structure MonState where
  failingCounters : String → ℕ
  passingCounters : String → ℕ
  alertStatus : String → Bool

/-- Fresh monitor state as set up by `BaseMonitor.__init__`: empty
default dictionaries. -/
def initMonState : MonState :=
  ⟨fun _ => 0, fun _ => 0, fun _ => false⟩

/-- Projection of the monitor state onto one source. -/
def sourceState (m : MonState) (s : String) : SourceState :=
  ⟨m.failingCounters s, m.passingCounters s, m.alertStatus s⟩

/-- Writing one source's per-source state back into the monitor state. -/
def updateSource (m : MonState) (s : String) (st : SourceState) :
    MonState :=
  ⟨fun x => if x = s then st.failing else m.failingCounters x,
   fun x => if x = s then st.passing else m.passingCounters x,
   fun x => if x = s then st.status else m.alertStatus x⟩

/-- Shallow embedding of `UsageMonitor.alert_check`: iterate
`usageSourceStep` over `self.SOURCES.keys()` in order, threading the
monitor state and collecting the alerts sent. -/
def usageAlertCheck (flop : ℕ) (expected data : String → Option ℚ) :
    List String → MonState → MonState × List UsageAlert
  | [], m => (m, [])
  | s :: ss, m =>
    let r := usageSourceStep s flop (expected s) (data s) (sourceState m s)
    let rest := usageAlertCheck flop expected data ss (updateSource m s r.1)
    (rest.1, r.2.toList ++ rest.2)

/-- A polling history for a usage monitor: each entry is the
`expected_values` lookup and the polled `data` lookup in effect at that
`alert_check` call (the task dispatcher may change `expected_values`
between polls). -/
def runUsage (sources : List String) (flop : ℕ) :
    List ((String → Option ℚ) × (String → Option ℚ)) → MonState →
    MonState × List UsageAlert
  | [], m => (m, [])
  | ed :: rest, m =>
    let r := usageAlertCheck flop ed.1 ed.2 sources m
    let q := runUsage sources flop rest r.1
    (q.1, r.2 ++ q.2)

/-- Alert payload of a status monitor, restricted to its varying
fields. -/
structure StatusAlert where
  source : String
  expected_state : Option String
  current_state : Option String
  failing : Bool
deriving DecidableEq

/-- One iteration of the `StatusMonitor.alert_check` loop for a single
source: an immediate failing alert when `not source_is_failing and
expected_state and expected_state != current_state`, an immediate
passing alert when `source_is_failing and expected_state and
expected_state == current_state`, otherwise nothing.  No counter is
consulted or modified and `alert_status` is never assigned. -/
def statusEmit (expected data : String → Option String) (m : MonState)
    (s : String) : Option StatusAlert :=
  match expected s with
  | some e =>
    if m.alertStatus s = false ∧ e ≠ "" ∧ some e ≠ data s then
      some ⟨s, some e, data s, true⟩
    else if m.alertStatus s = true ∧ e ≠ "" ∧ some e = data s then
      some ⟨s, some e, data s, false⟩
    else none
  | none => none

/-- Shallow embedding of `StatusMonitor.alert_check`: iterate over
`self.SOURCES` in order, emitting via `statusEmit`; the loop reads the
monitor state but never writes it. -/
def statusAlertCheck (expected data : String → Option String) :
    List String → MonState → MonState × List StatusAlert
  | [], m => (m, [])
  | s :: ss, m =>
    let rest := statusAlertCheck expected data ss m
    (rest.1, (statusEmit expected data m s).toList ++ rest.2)

/-- A polling history for a status monitor: each entry is the
`expected_values` lookup and the polled `data` lookup in effect at that
`alert_check` call. -/
def runStatus (sources : List String) :
    List ((String → Option String) × (String → Option String)) →
    MonState → MonState × List StatusAlert
  | [], m => (m, [])
  | ed :: rest, m =>
    let r := statusAlertCheck ed.1 ed.2 sources m
    let q := runStatus sources rest r.1
    (q.1, r.2 ++ q.2)

/-! ## Helper lemmas -/

theorem publishRun_retry (outcomes : List Bool) {α : Type} (msg : α) :
    publishRun outcomes true msg =
      (List.replicate ((outcomes.takeWhile id).length + 1) msg,
       (outcomes.takeWhile id).length) := by
  induction outcomes with
  | nil => simp [publishRun]
  | cons b rest ih =>
    cases b with
    | false => simp [publishRun, List.takeWhile]
    | true =>
      have h1 : publishRun (true :: rest) true msg =
          (msg :: (publishRun rest true msg).1,
           1 + (publishRun rest true msg).2) := by
        simp [publishRun]
      rw [h1, ih]
      simp only [List.takeWhile_cons, id, if_true, List.length_cons,
        Prod.ext_iff]
      rw [Nat.add_comm 1, List.replicate_succ, List.replicate_succ]
      simp [List.replicate_succ]

theorem publishRun_no_retry (outcomes : List Bool) {α : Type} (msg : α) :
    publishRun outcomes false msg =
      ([msg], if outcomes.head? = some true then 1 else 0) := by
  cases outcomes with
  | nil => simp [publishRun]
  | cons b rest => cases b <;> simp [publishRun]

theorem statusAlertCheck_state (expected data : String → Option String)
    (sources : List String) (m : MonState) :
    (statusAlertCheck expected data sources m).1 = m := by
  induction sources with
  | nil => rfl
  | cons s ss ih => simp [statusAlertCheck, ih]

theorem runStatus_state (sources : List String)
    (steps : List ((String → Option String) × (String → Option String)))
    (m : MonState) : (runStatus sources steps m).1 = m := by
  induction steps generalizing m with
  | nil => rfl
  | cons ed rest ih => simp [runStatus, statusAlertCheck_state, ih]

theorem mergeData_fold_skip (e : ℚ) (points : List StoredPoint)
    (acc : String → List ℚ) :
    points.foldl
      (fun acc p => if e ≤ p.timestamp then mergePoint acc p else acc)
      acc =
    (points.filter fun p => e ≤ p.timestamp).foldl
      (fun acc p => if e ≤ p.timestamp then mergePoint acc p else acc)
      acc := by
  induction points generalizing acc with
  | nil => rfl
  | cons p ps ih =>
    simp only [List.foldl_cons, List.filter_cons]
    by_cases hp : e ≤ p.timestamp
    · rw [if_pos hp, if_pos (by simp [hp])]
      simp only [List.foldl_cons, if_pos hp]
      exact ih _
    · rw [if_neg hp, if_neg (by simp [hp])]
      exact ih _

theorem mergeData_filter (points : List StoredPoint) (e : ℚ) :
    mergeData points e =
      mergeData (points.filter fun p => e ≤ p.timestamp) e := by
  unfold mergeData
  exact mergeData_fold_skip e points _

theorem mergeData_all_old (points : List StoredPoint) (e : ℚ)
    (h : ∀ p ∈ points, p.timestamp < e) :
    mergeData points e = fun _ => [] := by
  rw [mergeData_filter]
  have hf : points.filter (fun p => e ≤ p.timestamp) = [] := by
    rw [List.filter_eq_nil_iff]
    intro p hp
    simpa using not_le.mpr (h p hp)
  rw [hf]
  rfl

/-- Invariant tying a source's latched status to its counters: while
passing, the passing counter is zero; while failing, the failing counter
is zero.  It is preserved by every `alert_check` and pins the counter the
alerting branches leave unreset at zero. -/
def counterInv (st : SourceState) : Prop :=
  (st.status = false → st.passing = 0) ∧ (st.status = true → st.failing = 0)

theorem sourceState_updateSource (m : MonState) (s : String)
    (st : SourceState) (x : String) :
    sourceState (updateSource m s st) x =
      if x = s then st else sourceState m x := by
  by_cases h : x = s <;> simp [sourceState, updateSource, h]

theorem counterInv_step (source : String) (flop : ℕ)
    (threshold usage : Option ℚ) (st : SourceState) (h : counterInv st) :
    counterInv (usageSourceStep source flop threshold usage st).1 := by
  obtain ⟨h1, h2⟩ := h
  cases threshold with
  | none => simp [usageSourceStep, counterInv]
  | some t =>
    simp only [usageSourceStep, counterInv]
    split_ifs with c1 hf c2 hp <;> constructor <;> intro hx <;> simp_all

theorem counterInv_usageAlertCheck (flop : ℕ)
    (e d : String → Option ℚ) (sources : List String) (m : MonState)
    (h : ∀ x, counterInv (sourceState m x)) :
    ∀ x, counterInv (sourceState (usageAlertCheck flop e d sources m).1 x) := by
  induction sources generalizing m with
  | nil => simpa [usageAlertCheck] using h
  | cons s ss ih =>
    simp only [usageAlertCheck]
    apply ih
    intro x
    rw [sourceState_updateSource]
    split
    · exact counterInv_step _ _ _ _ _ (h s)
    · exact h x

theorem counterInv_runUsage (sources : List String) (flop : ℕ)
    (steps : List ((String → Option ℚ) × (String → Option ℚ)))
    (m : MonState) (h : ∀ x, counterInv (sourceState m x)) :
    ∀ x, counterInv (sourceState (runUsage sources flop steps m).1 x) := by
  induction steps generalizing m with
  | nil => simpa [runUsage] using h
  | cons ed rest ih =>
    simp only [runUsage]
    exact ih _ (counterInv_usageAlertCheck _ _ _ _ _ h)

/-! ## Claim theorems -/

/-- C1 counterexample: a status monitor with one source `svc`, expected
state `running`, flop threshold 6 (`FLOP_PROTECTION_COUNTER`), fresh
state and no counter anywhere near the threshold, observes `stopped`
once: `StatusMonitor.alert_check` emits a `failing=true` alert
immediately — its counter is 0, not 6 — and `alert_status` is not
flipped, contradicting the claimed flop-protected state machine. -/
theorem C1_status_flop_counterexample :
    (statusAlertCheck (fun _ => some "running") (fun _ => some "stopped")
        ["svc"] initMonState).2 =
      [⟨"svc", some "running", some "stopped", true⟩] ∧
    (statusAlertCheck (fun _ => some "running") (fun _ => some "stopped")
        ["svc"] initMonState).1.failingCounters "svc" = 0 ∧
    (statusAlertCheck (fun _ => some "running") (fun _ => some "stopped")
        ["svc"] initMonState).1.passingCounters "svc" = 0 ∧
    (statusAlertCheck (fun _ => some "running") (fun _ => some "stopped")
        ["svc"] initMonState).1.alertStatus "svc" = false := by
  refine ⟨rfl, rfl, rfl, rfl⟩

/-- C1 amended: `StatusMonitor.alert_check` applies no flop protection at
all: it never reads or writes the counters and never flips
`alert_status`; instead it emits immediately, per source, a
`failing=true` alert whenever the expected state is set (non-empty) and
differs from the current state while `alert_status[s]` is falsy, and a
`failing=false` alert whenever set and equal while `alert_status[s]` is
true. -/
theorem C1_status_no_flop (expected data : String → Option String)
    (sources : List String) (m : MonState) :
    (statusAlertCheck expected data sources m).1 = m ∧
    (statusAlertCheck expected data sources m).2 =
      sources.filterMap (statusEmit expected data m) := by
  constructor
  · exact statusAlertCheck_state expected data sources m
  · induction sources with
    | nil => rfl
    | cons s ss ih =>
      cases h : statusEmit expected data m s <;>
        simp [statusAlertCheck, List.filterMap_cons, h, ih]

/-- C2: the S1 scenario — `sources={cpu}`, threshold 80, flop threshold
6, fresh state, readings [85, 90, 82, 88, 95, 81] — emits exactly one
alert, `failing=true` with `current_usage=81`, latching
`alert_status[cpu]=true` and leaving both counters zero; the S2 scenario
— readings [85, 90, 70, 85, 90, 70] — emits nothing and leaves both
counters zero. -/
theorem C2_s1_s2_scenarios :
    (runUsage ["cpu"] 6
        ([85, 90, 82, 88, 95, 81].map fun r =>
          ((fun s => if s = "cpu" then some 80 else none),
           (fun s => if s = "cpu" then some r else none)))
        initMonState).2 = [⟨"cpu", some 80, some 81, true⟩] ∧
    (runUsage ["cpu"] 6
        ([85, 90, 82, 88, 95, 81].map fun r =>
          ((fun s => if s = "cpu" then some 80 else none),
           (fun s => if s = "cpu" then some r else none)))
        initMonState).1.alertStatus "cpu" = true ∧
    (runUsage ["cpu"] 6
        ([85, 90, 82, 88, 95, 81].map fun r =>
          ((fun s => if s = "cpu" then some 80 else none),
           (fun s => if s = "cpu" then some r else none)))
        initMonState).1.failingCounters "cpu" = 0 ∧
    (runUsage ["cpu"] 6
        ([85, 90, 82, 88, 95, 81].map fun r =>
          ((fun s => if s = "cpu" then some 80 else none),
           (fun s => if s = "cpu" then some r else none)))
        initMonState).1.passingCounters "cpu" = 0 ∧
    (runUsage ["cpu"] 6
        ([85, 90, 70, 85, 90, 70].map fun r =>
          ((fun s => if s = "cpu" then some 80 else none),
           (fun s => if s = "cpu" then some r else none)))
        initMonState).2 = [] ∧
    (runUsage ["cpu"] 6
        ([85, 90, 70, 85, 90, 70].map fun r =>
          ((fun s => if s = "cpu" then some 80 else none),
           (fun s => if s = "cpu" then some r else none)))
        initMonState).1.failingCounters "cpu" = 0 ∧
    (runUsage ["cpu"] 6
        ([85, 90, 70, 85, 90, 70].map fun r =>
          ((fun s => if s = "cpu" then some 80 else none),
           (fun s => if s = "cpu" then some r else none)))
        initMonState).1.passingCounters "cpu" = 0 := by
  refine ⟨by decide, by decide, by decide, by decide, by decide,
    by decide, by decide⟩

/-- C3 counterexample: starting at 10:17:05.500000 UTC (37025.5 seconds
into the day) with interval 1800, the truncation `int(delta)` in
`start_aggregation_loop` makes the first tick fire at 10:29:59.500000,
half a second before the 10:30:00 boundary (= 37800 s) — far outside
±1 ms. -/
theorem C3_alignment_counterexample :
    intervalBoundary (74051 / 2) 1800 = 37800 ∧
    firstTickTime (74051 / 2) 1800 = 37800 - 1 / 2 ∧
    ¬ |firstTickTime (74051 / 2) 1800 -
        intervalBoundary (74051 / 2) 1800| ≤ 1 / 1000 := by
  have hb : intervalBoundary (74051 / 2) 1800 = 37800 := by
    norm_num [intervalBoundary, nextInterval, nsecsPassed]
  have hf : firstTickTime (74051 / 2) 1800 = 37800 - 1 / 2 := by
    norm_num [firstTickTime, nextInterval, nsecsPassed]
  refine ⟨hb, hf, ?_⟩
  rw [hf, hb, abs_le]
  intro hcontra
  have h1 := hcontra.1
  norm_num at h1

/-- C3 amended: the first aggregation tick never fires late and fires
less than one second early — it lands in the half-open window
(boundary − 1 s, boundary] around the next
`((s // interval) + 1) * interval` boundary, `s` being the seconds
elapsed in the current UTC hour; when the delay is a whole number of
seconds, as at exactly 10:17:05 UTC with interval 1800, it fires exactly
on the boundary, 10:30:00, well within ±1 ms. -/
theorem C3_alignment_amended :
    (∀ t interval : ℚ,
      intervalBoundary t interval - 1 < firstTickTime t interval ∧
      firstTickTime t interval ≤ intervalBoundary t interval) ∧
    firstTickTime 37025 1800 = 37800 ∧
    intervalBoundary 37025 1800 = 37800 := by
  refine ⟨fun t interval => ⟨?_, ?_⟩,
    by norm_num [firstTickTime, nextInterval, nsecsPassed],
    by norm_num [intervalBoundary, nextInterval, nsecsPassed]⟩
  · unfold firstTickTime intervalBoundary
    have h := Int.sub_one_lt_floor (nextInterval t interval)
    linarith
  · unfold firstTickTime intervalBoundary
    have h := Int.floor_le (nextInterval t interval)
    linarith

/-- C4 counterexample: at epoch instant 1930 (second-of-minute 10) the
bound is 1930 − 1800 − 10 = 120, so the datapoint stamped 125 — which is
older than now − 30 min = 130 — is merged and its reading published by
`send_data`. -/
theorem C4_window_counterexample :
    sendDataEarliest 1930 = 120 ∧
    (125 : ℚ) < 1930 - 30 * 60 ∧
    (sendData [⟨[("cpu", 50)], 125⟩] 1930).1.map (fun f => f "cpu") =
      some [50] := by
  have he : sendDataEarliest 1930 = 120 := by
    norm_num [sendDataEarliest, secondsIntoMinute]
  refine ⟨he, by norm_num, ?_⟩
  unfold sendData
  rw [he]
  decide

/-- C4 amended: the earliest bound `send_data` uses is now − 30 min −
seconds-elapsed-in-the-current-UTC-minute (microseconds included) — not
seconds since the half hour — so datapoints up to almost a minute older
than 30 minutes can be flushed; what holds is that no datapoint older
than that bound is ever included: merging ignores every point whose
timestamp is below it. -/
theorem C4_window_amended (points : List StoredPoint) (now : ℚ) :
    sendDataEarliest now = now - 30 * 60 - secondsIntoMinute now ∧
    mergeData points (sendDataEarliest now) =
      mergeData
        (points.filter fun p => sendDataEarliest now ≤ p.timestamp)
        (sendDataEarliest now) := by
  constructor
  · unfold sendDataEarliest
    ring
  · exact mergeData_filter points _

/-- C5 counterexample: with `retry=True` and the first two publish
attempts raising, `publish_info_message` publishes the payload three
times in total — the recursive call passes `retry` through unchanged, so
the payload is retried twice, not exactly once. -/
theorem C5_retry_counterexample :
    (publishRun [true, true, false] true "payload").1.length = 3 ∧
    ¬ (publishRun [true, true, false] true "payload").1.length ≤ 2 := by
  refine ⟨rfl, by decide⟩

/-- C5 amended: on a raising publish the client logs, forces a reconnect
and — when `retry` is set — retries the same payload until an attempt
succeeds, reconnecting once per failure (so a payload can be retried more
than once); with `retry` unset exactly one attempt is made, with at most
one reconnect and no retry — in particular ping publishes
(`ping_pong` passes `retry=False`) are never retried. -/
theorem C5_retry_amended (outcomes : List Bool) (msg : String) :
    publishRun outcomes true msg =
      (List.replicate ((outcomes.takeWhile id).length + 1) msg,
       (outcomes.takeWhile id).length) ∧
    publishRun outcomes false msg =
      ([msg], if outcomes.head? = some true then 1 else 0) ∧
    pingRun outcomes =
      (["ping"], if outcomes.head? = some true then 1 else 0) :=
  ⟨publishRun_retry outcomes msg, publishRun_no_retry outcomes msg,
   publishRun_no_retry outcomes "ping"⟩

/-- C6: on credential bootstrap, a 409 response exits with code 409
without reaching the AMQP connection; any status other than 200 and 409
exits with that status; a 200 response missing any of `amqp_password`,
`user_id`, `host_id` exits with code 1; and only a 200 response carrying
all three proceeds to open the AMQP connection, with exactly those
credentials. -/
theorem C6_bootstrap_exit_codes (r : BootstrapResponse) :
    (r.status = 409 → initializeAmqp r = .error 409) ∧
    (r.status ≠ 200 → r.status ≠ 409 →
      initializeAmqp r = .error r.status) ∧
    (r.status = 200 →
      r.amqp_password = none ∨ r.user_id = none ∨ r.host_id = none →
      initializeAmqp r = .error 1) ∧
    (∀ p u h, r.status = 200 → r.amqp_password = some p →
      r.user_id = some u → r.host_id = some h →
      initializeAmqp r = .ok ⟨p, u, h⟩) := by
  obtain ⟨st, ap, ui, hi⟩ := r
  refine ⟨fun h409 => ?_, fun h200 h409 => ?_, fun h200 hmiss => ?_,
    fun p u h h200 hp hu hh => ?_⟩
  · subst h409
    rfl
  · unfold initializeAmqp
    rw [if_neg h200, if_neg h409]
  · subst h200
    cases ap <;> cases ui <;> cases hi <;> simp_all [initializeAmqp]
  · subst h200 hp hu hh
    rfl

/-- Witness for C6 at concrete responses: a 409, a 503, a 200 missing
`host_id`, and a complete 200. -/
theorem C6_bootstrap_exit_codes_witness :
    initializeAmqp ⟨409, none, none, none⟩ = .error 409 ∧
    initializeAmqp ⟨503, none, none, none⟩ = .error 503 ∧
    initializeAmqp ⟨200, some "pw", some "uid", none⟩ = .error 1 ∧
    initializeAmqp ⟨200, some "pw", some "uid", some "hid"⟩ =
      .ok ⟨"pw", "uid", "hid"⟩ :=
  ⟨(C6_bootstrap_exit_codes ⟨409, none, none, none⟩).1 rfl,
   (C6_bootstrap_exit_codes ⟨503, none, none, none⟩).2.1 (by decide)
     (by decide),
   (C6_bootstrap_exit_codes ⟨200, some "pw", some "uid", none⟩).2.2.1 rfl
     (Or.inr (Or.inr rfl)),
   (C6_bootstrap_exit_codes ⟨200, some "pw", some "uid", some "hid"⟩).2.2.2
     "pw" "uid" "hid" rfl rfl rfl rfl⟩

/-- C7 counterexample: with threshold 80, `alert_status[cpu]=false` and
both counters zero, a reading exactly equal to the threshold takes the
`usage >= threshold` branch and increments the failing counter to 1 —
it does not reset both counters as claimed. -/
theorem C7_reset_counterexample :
    (usageAlertCheck 6 (fun _ => some 80) (fun _ => some 80) ["cpu"]
        initMonState).1.failingCounters "cpu" = 1 ∧
    ¬ (usageAlertCheck 6 (fun _ => some 80) (fun _ => some 80) ["cpu"]
        initMonState).1.failingCounters "cpu" = 0 := by
  refine ⟨rfl, by decide⟩

/-- C7 amended: for a usage monitor source with a threshold set and
`alert_status[s]=false`, a reading strictly below the threshold resets
both counters to zero and emits no alert (a reading equal to the
threshold instead increments the failing counter, since the code compares
with `usage >= threshold`). -/
theorem C7_reset_below_threshold (flop : ℕ) (T u : ℚ) (m : MonState)
    (s : String) (hstatus : m.alertStatus s = false) (hu : u < T) :
    (usageAlertCheck flop (fun _ => some T) (fun _ => some u) [s]
        m).1.failingCounters s = 0 ∧
    (usageAlertCheck flop (fun _ => some T) (fun _ => some u) [s]
        m).1.passingCounters s = 0 ∧
    (usageAlertCheck flop (fun _ => some T) (fun _ => some u) [s]
        m).2 = [] := by
  have hge : pyGeB (some u) T = false := by
    simp [pyGeB, not_le.mpr hu]
  have hstep : usageSourceStep s flop (some T) (some u) (sourceState m s) =
      (⟨0, 0, false⟩, none) := by
    simp [usageSourceStep, hge, sourceState, hstatus]
  simp [usageAlertCheck, hstep, updateSource]

/-- Witness for C7 at threshold 80, reading 70, fresh state. -/
theorem C7_reset_below_threshold_witness :
    (usageAlertCheck 6 (fun _ => some 80) (fun _ => some 70) ["cpu"]
        initMonState).1.failingCounters "cpu" = 0 ∧
    (usageAlertCheck 6 (fun _ => some 80) (fun _ => some 70) ["cpu"]
        initMonState).1.passingCounters "cpu" = 0 ∧
    (usageAlertCheck 6 (fun _ => some 80) (fun _ => some 70) ["cpu"]
        initMonState).2 = [] :=
  C7_reset_below_threshold 6 80 70 initMonState "cpu" rfl (by norm_num)

/-- C9: starting from the fresh monitor state, after any sequence of
`alert_check` calls — with arbitrary sources, flop threshold, expected
values and readings — the failing and passing counters of a source are
never simultaneously nonzero, for usage monitors (whose alerting
branches leave the opposite counter latched at zero) and trivially for
status monitors (whose `alert_check` never touches the counters). -/
theorem C9_counters_never_both_nonzero :
    (∀ (sources : List String) (flop : ℕ)
      (steps : List ((String → Option ℚ) × (String → Option ℚ)))
      (s : String),
      (runUsage sources flop steps initMonState).1.failingCounters s = 0 ∨
      (runUsage sources flop steps initMonState).1.passingCounters s = 0) ∧
    (∀ (sources : List String)
      (steps : List ((String → Option String) × (String → Option String)))
      (s : String),
      (runStatus sources steps initMonState).1.failingCounters s = 0 ∧
      (runStatus sources steps initMonState).1.passingCounters s = 0) := by
  constructor
  · intro sources flop steps s
    have hinv := counterInv_runUsage sources flop steps initMonState
      (fun _ => ⟨fun _ => rfl, fun h => by cases h⟩) s
    obtain ⟨h1, h2⟩ := hinv
    cases hst : (runUsage sources flop steps initMonState).1.alertStatus s
    · right
      exact h1 hst
    · left
      exact h2 hst
  · intro sources steps s
    rw [runStatus_state]
    exact ⟨rfl, rfl⟩

/-- C10: when no stored datapoint survives the earliest bound — in
particular when the buffer is empty — the merged dictionary has no
`timestamp` key, so the unguarded `data.pop('timestamp')` in `send_data`
raises `KeyError`: nothing is published and `data_points` is left
unchanged. -/
theorem C10_send_data_keyerror (points : List StoredPoint) (now : ℚ)
    (h : ∀ p ∈ points, p.timestamp < sendDataEarliest now) :
    mergeData points (sendDataEarliest now) "timestamp" = [] ∧
    sendData points now = (none, points) := by
  have hm := mergeData_all_old points _ h
  constructor
  · rw [hm]
  · unfold sendData
    rw [hm]
    simp

/-- Witness for C10: a buffer holding only a datapoint stamped 0 at epoch
instant 3600 (bound 1800), and the empty buffer. -/
theorem C10_send_data_keyerror_witness :
    mergeData [⟨[("cpu", 50)], 0⟩] (sendDataEarliest 3600) "timestamp" =
      [] ∧
    sendData [⟨[("cpu", 50)], 0⟩] 3600 = (none, [⟨[("cpu", 50)], 0⟩]) :=
  C10_send_data_keyerror [⟨[("cpu", 50)], 0⟩] 3600 (by
    have he : sendDataEarliest 3600 = 1800 := by
      norm_num [sendDataEarliest, secondsIntoMinute]
    intro p hp
    simp only [List.mem_singleton] at hp
    subst hp
    rw [he]
    norm_num)

/-- C8 counterexample: `random.randint(0, 1000)` is inclusive, so the
jitter can be exactly 1: at attempt 0 with draw 1000 the delay is 2,
outside the claimed half-open interval [2^0, 2^0 + 1). -/
theorem C8_backoff_counterexample :
    backoffDelay 0 1000 = 2 ∧
    ¬ backoffDelay 0 1000 < 2 ^ 0 + 1 := by
  constructor <;> norm_num [backoffDelay]

/-- C8 amended: for every attempt `a` the backoff delay lies in the
closed interval [2^a, 2^a + 1] (the jitter draw is inclusive of 1000 ms),
and the attempt number used as the exponent, evolving from 0 by one per
failure and frozen at `MAX_BACKOFF_MULTIPLE`, never exceeds 10. -/
theorem C8_backoff_bounds :
    (∀ a j : ℕ, j ≤ 1000 →
      2 ^ a ≤ backoffDelay a j ∧ backoffDelay a j ≤ 2 ^ a + 1) ∧
    (∀ n, attemptAfter n ≤ 10) := by
  constructor
  · intro a j hj
    unfold backoffDelay
    constructor
    · have h0 : (0 : ℚ) ≤ (j : ℚ) / 1000 := by positivity
      linarith
    · have h1 : (j : ℚ) / 1000 ≤ 1 := by
        rw [div_le_one (by norm_num)]
        exact_mod_cast hj
      linarith
  · intro n
    induction n with
    | zero => simp [attemptAfter]
    | succ n ih =>
      unfold attemptAfter nextAttempt MAX_BACKOFF_MULTIPLE
      split <;> omega

/-- Witness for C8 at attempt 3, jitter draw 500. -/
theorem C8_backoff_bounds_witness :
    2 ^ 3 ≤ backoffDelay 3 500 ∧ backoffDelay 3 500 ≤ 2 ^ 3 + 1 :=
  C8_backoff_bounds.1 3 500 (by norm_num)

end Hiveary
